import Mathlib

/-!
Verification of the story editor / preview components of the `nobel2.0`
repository.

The development shallowly embeds the two stateful cores of the repository:

* the **content list model** (`handleAddText`, `handleAddImage`,
  `removeContentItem` in `src/unnamed/part_000` lines 318-354 and, identically,
  `src/components/story-editor.backup.tsx` lines 57-93), and
* the **slide navigation engine** of the preview modal
  (`handleScroll`, `handleTouchEnd`, `handleKeyDown` in
  `src/unnamed/part_000` lines 828-934, plus `nextSlide` / `prevSlide` /
  the tap-to-select indicator of
  `src/components/story-editor.backup.tsx` lines 442-460 and 552-564).

JavaScript numeric operations are embedded over `Int`:
`%` is `Int.tmod` (JS remainder truncates toward zero),
`Math.round(p / h)` for integers `p`, `h > 0` is `(2*p + h).fdiv (2*h)`
(JS rounds half toward positive infinity), and the comparison
`p >= (n - 0.5) * h` is scaled by 2 to `2*p ≥ (2*n - 1) * h` so that it
stays in `Int` while remaining exactly the source predicate.
-/

namespace Nobel

/-! ## Content list model -/

/-- Tag of a slide item, from the `type: 'text' | 'image'` field of
`StoryContentItem` in the source. -/
inductive ContentType where
  | text
  | image
deriving DecidableEq, Repr

/-- One slide of story content, from the `StoryContentItem` interface
(`src/components/story-editor.backup.tsx` lines 17-22). -/
structure StoryContentItem where
  id : String
  type : ContentType
  content : String
  order : Nat
deriving DecidableEq, Repr

/-- Embedding of `handleAddText` (`src/unnamed/part_000` lines 335-346):
`if (!currentText.trim()) return;` then append
`{id, type: 'text', content: currentText.trim(), order: storyContent.length}`.
The fresh id (`Date.now().toString()` in the source) is a parameter. -/
def handleAddText (storyContent : List StoryContentItem) (newId : String)
    (currentText : String) : List StoryContentItem :=
  if currentText.trim = "" then storyContent
  else storyContent ++
    [{ id := newId, type := ContentType.text, content := currentText.trim,
       order := storyContent.length }]

/-- Embedding of the append performed by the `reader.onloadend` callback of
`handleAddImage` (`src/unnamed/part_000` lines 318-333): append
`{id, type: 'image', content: dataUrl, order: storyContent.length}`. -/
def handleAddImage (storyContent : List StoryContentItem) (newId : String)
    (dataUrl : String) : List StoryContentItem :=
  storyContent ++
    [{ id := newId, type := ContentType.image, content := dataUrl,
       order := storyContent.length }]

/-- The indexed map `.map((item, index) => ({...item, order: index}))` of
`removeContentItem`, with the running index made explicit. -/
def renumberFrom (k : Nat) : List StoryContentItem → List StoryContentItem
  | [] => []
  | x :: xs => { x with order := k } :: renumberFrom (k + 1) xs

/-- Embedding of `removeContentItem` (`src/unnamed/part_000` lines 348-354 and
`src/components/story-editor.backup.tsx` lines 87-93):
`prev.filter(item => item.id !== id).map((item, index) => ({...item, order: index}))`. -/
def removeContentItem (storyContent : List StoryContentItem) (rid : String) :
    List StoryContentItem :=
  renumberFrom 0 (storyContent.filter (fun item => item.id ≠ rid))

/-- The renumbering invariant of the spec: `sequence[i].order == i` for every
index `i`. -/
def Ordered (l : List StoryContentItem) : Prop :=
  ∀ i : Fin l.length, (l.get i).order = i.val

instance (l : List StoryContentItem) : Decidable (Ordered l) :=
  inferInstanceAs (Decidable (∀ i : Fin l.length, (l.get i).order = i.val))

/-- The identity-relevant projection of an item: everything but `order`. -/
def itemData (x : StoryContentItem) : String × ContentType × String :=
  (x.id, x.type, x.content)

theorem renumberFrom_length (k : Nat) (l : List StoryContentItem) :
    (renumberFrom k l).length = l.length := by
  induction l generalizing k with
  | nil => rfl
  | cons x xs ih => simp [renumberFrom, ih]

theorem renumberFrom_get_order (k : Nat) (l : List StoryContentItem)
    (i : Fin (renumberFrom k l).length) :
    ((renumberFrom k l).get i).order = k + i.val := by
  induction l generalizing k with
  | nil => exact absurd i.isLt (by simp [renumberFrom])
  | cons x xs ih =>
    match i with
    | ⟨0, h⟩ => simp [renumberFrom]
    | ⟨j + 1, h⟩ =>
      have hj : j < (renumberFrom (k + 1) xs).length := by
        simpa [renumberFrom] using Nat.lt_of_succ_lt_succ h
      have := ih (k + 1) ⟨j, hj⟩
      simpa [renumberFrom, Nat.add_assoc, Nat.add_comm 1 j] using this

theorem ordered_renumberFrom (l : List StoryContentItem) :
    Ordered (renumberFrom 0 l) := by
  intro i
  simpa using renumberFrom_get_order 0 l i

theorem ordered_removeContentItem (l : List StoryContentItem) (rid : String) :
    Ordered (removeContentItem l rid) :=
  ordered_renumberFrom _

theorem renumberFrom_map_itemData (k : Nat) (l : List StoryContentItem) :
    (renumberFrom k l).map itemData = l.map itemData := by
  induction l generalizing k with
  | nil => rfl
  | cons x xs ih => simp [renumberFrom, itemData, ih]

theorem renumberFrom_eq_self (k : Nat) (l : List StoryContentItem)
    (h : ∀ (j : Nat) (hj : j < l.length), (l.get ⟨j, hj⟩).order = k + j) :
    renumberFrom k l = l := by
  induction l generalizing k with
  | nil => rfl
  | cons x xs ih =>
    have hx : x.order = k := by simpa using h 0 (by simp)
    have hxs : renumberFrom (k + 1) xs = xs := by
      apply ih
      intro j hj
      have hj' : j + 1 < (x :: xs).length := by simpa using Nat.succ_lt_succ hj
      have h2 : (xs.get ⟨j, hj⟩).order = k + (j + 1) := h (j + 1) hj'
      omega
    calc renumberFrom k (x :: xs) = { x with order := k } :: renumberFrom (k + 1) xs := rfl
      _ = x :: xs := by
          rw [hxs]
          congr 1
          cases x
          simp_all

theorem ordered_append_singleton (l : List StoryContentItem)
    (x : StoryContentItem) (hl : Ordered l) (hx : x.order = l.length) :
    Ordered (l ++ [x]) := by
  intro i
  have hlen : (l ++ [x]).length = l.length + 1 := by simp
  rcases Nat.lt_or_ge i.val l.length with h | h
  · have : (l ++ [x]).get i = l.get ⟨i.val, h⟩ := by
      simp [List.get_eq_getElem, List.getElem_append_left h]
    rw [this]
    exact hl ⟨i.val, h⟩
  · have hi : i.val = l.length := by
      have := i.isLt
      omega
    have : (l ++ [x]).get i = x := by
      simp only [List.get_eq_getElem]
      rw [List.getElem_append_right h]
      simp [hi]
    rw [this, hx, hi]

/-! ## Slide navigation engine of `StoryPreviewModal` (`src/unnamed/part_000`)

The modal's React state (lines 821-825) is `currentIndex`, `isTransitioning`
(never written by this variant), `touchStartY`, `touchEndY`, plus the DOM
container `containerRef` whose `scrollTop` the handlers read and write.
`mounted` records whether `containerRef.current` is non-null; the render
(lines 942-945) returns `null` — mounting nothing — when the sequence is
empty or the current item does not exist. -/

/-- Mutable state visible to the scroll / touch / keyboard handlers of the
scroll-based preview modal. -/
structure PreviewState where
  currentIndex : Int
  touchStartY : Int
  touchEndY : Int
  scrollTop : Int
  mounted : Bool
deriving DecidableEq, Repr

/-- JavaScript `Math.round(p / h)` for integer `p` and positive integer `h`:
round half toward positive infinity, i.e. the floor of `p/h + 1/2`. -/
def jsRound (p h : Int) : Int :=
  Int.fdiv (2 * p + h) (2 * h)

/-- Embedding of `handleScroll` (`src/unnamed/part_000` lines 828-855).
`n` is `storyContent.length` and `h` is `window.innerHeight`. The guard
`if (!containerRef.current) return;` is the `mounted` test; the comparison
`scrollPosition >= (storyContent.length - 0.5) * windowHeight` is scaled by 2
to stay in `Int`. -/
def handleScroll (n : Nat) (h : Int) (s : PreviewState) : PreviewState :=
  if s.mounted then
    let scrollPosition := s.scrollTop
    let currentActiveIndex := jsRound scrollPosition h
    if 2 * scrollPosition ≥ (2 * (n : Int) - 1) * h then
      { s with scrollTop := 0, currentIndex := 0 }
    else if scrollPosition ≤ 0 ∧ s.currentIndex = 0 then
      { s with scrollTop := ((n : Int) - 1) * h, currentIndex := (n : Int) - 1 }
    else if currentActiveIndex ≠ s.currentIndex then
      { s with currentIndex := currentActiveIndex }
    else s
  else s

/-- Embedding of `handleTouchEnd` (`src/unnamed/part_000` lines 868-904).
The source guard `if (!touchStartY || touchEndY === null || !containerRef.current)
return;` reads: `touchStartY` is falsy exactly when it is `0`, and
`touchEndY === null` is never true (the state is initialised to `0` and only
ever set to numbers). JS `%` on the nonneg dividends produced here is
`Int.tmod`. -/
def handleTouchEnd (n : Nat) (h : Int) (s : PreviewState) : PreviewState :=
  if s.touchStartY = 0 ∨ s.mounted = false then s
  else
    let diff := s.touchStartY - s.touchEndY
    let threshold : Int := 30
    if threshold < |diff| then
      if 0 < diff then
        let nextIndex := Int.tmod (s.currentIndex + 1) (n : Int)
        { s with scrollTop := nextIndex * h, currentIndex := nextIndex,
                 touchStartY := 0, touchEndY := 0 }
      else
        let prevIndex := Int.tmod (s.currentIndex - 1 + (n : Int)) (n : Int)
        { s with scrollTop := prevIndex * h, currentIndex := prevIndex,
                 touchStartY := 0, touchEndY := 0 }
    else
      { s with scrollTop := s.currentIndex * h, touchStartY := 0, touchEndY := 0 }

/-- Keys distinguished by `handleKeyDown` (`src/unnamed/part_000`
lines 907-930). -/
inductive Key where
  | arrowDown
  | space
  | arrowUp
  | escape
  | other
deriving DecidableEq, Repr

/-- Embedding of `handleKeyDown` (`src/unnamed/part_000` lines 907-934). Note
that the source never calls `setCurrentIndex` here: ArrowDown/Space scroll to
`min(currentIndex + 1, n - 1) * h` and ArrowUp to `max(currentIndex - 1, 0) * h`;
the index itself is updated only by the scroll handler reacting to that scroll.
Escape invokes the external `onClose` callback and changes no navigation
state. -/
def handleKeyDown (n : Nat) (h : Int) (key : Key) (s : PreviewState) :
    PreviewState :=
  if s.mounted then
    match key with
    | Key.arrowDown | Key.space =>
      { s with scrollTop := min (s.currentIndex + 1) ((n : Int) - 1) * h }
    | Key.arrowUp =>
      { s with scrollTop := max (s.currentIndex - 1) 0 * h }
    | Key.escape => s
    | Key.other => s
  else s

/-- Render guard of the modal (`src/unnamed/part_000` lines 942-945):
`if (storyContent.length === 0) return null;` and then
`const currentItem = storyContent[currentIndex]; if (!currentItem) return null;`.
When this is `false` nothing is mounted, so `containerRef.current` stays null
and no scroll/touch container exists. -/
def rendersContainer (storyContent : List StoryContentItem)
    (currentIndex : Int) : Bool :=
  !(storyContent.length == 0) &&
    (decide (0 ≤ currentIndex) && decide (currentIndex < (storyContent.length : Int)))

/-! ## Arrow-button navigation of the backup preview modal
(`src/components/story-editor.backup.tsx` lines 438-564) -/

/-- Direction of a pending settle timer created by `nextSlide` or
`prevSlide`. -/
inductive StepDir where
  | inc
  | dec
deriving DecidableEq, Repr

/-- State of the backup modal: `currentIndex` and `isTransitioning` React
state (lines 439-440) plus the pending `setTimeout` callback, recorded as its
delay and direction (`none` when no timer is pending). -/
structure ModalState where
  currentIndex : Int
  isTransitioning : Bool
  pending : Option (Nat × StepDir)
deriving DecidableEq, Repr

/-- Settle duration of the backup modal's slide transition: the literal `200`
of the `setTimeout(..., 200)` calls at lines 445-448 and 455-458. -/
def settleDelay : Nat := 200

/-- Embedding of `nextSlide` (`src/components/story-editor.backup.tsx`
lines 442-450): guarded by `currentIndex < storyContent.length - 1`, it sets
`isTransitioning` and schedules the commit after `settleDelay`. -/
def nextSlide (n : Int) (s : ModalState) : ModalState :=
  if s.currentIndex < n - 1 then
    { s with isTransitioning := true, pending := some (settleDelay, StepDir.inc) }
  else s

/-- Embedding of `prevSlide` (`src/components/story-editor.backup.tsx`
lines 452-460): guarded by `currentIndex > 0`. -/
def prevSlide (s : ModalState) : ModalState :=
  if 0 < s.currentIndex then
    { s with isTransitioning := true, pending := some (settleDelay, StepDir.dec) }
  else s

/-- Firing of the pending `setTimeout` callback: `setCurrentIndex(prev => prev ± 1);
setIsTransitioning(false)` (lines 445-448 and 455-458). -/
def firePending (s : ModalState) : ModalState :=
  match s.pending with
  | some (_, StepDir.inc) =>
    { currentIndex := s.currentIndex + 1, isTransitioning := false, pending := none }
  | some (_, StepDir.dec) =>
    { currentIndex := s.currentIndex - 1, isTransitioning := false, pending := none }
  | none => s

/-- Embedding of the tap-to-select slide indicator
(`src/components/story-editor.backup.tsx` lines 552-564): each dot's click
handler is `() => setCurrentIndex(index)`, with no transition handling. -/
def selectSlide (i : Int) (s : ModalState) : ModalState :=
  { s with currentIndex := i }

/-! ## Arithmetic helper lemmas -/

theorem tmod_bounds {a n : Int} (ha : 0 ≤ a) (hn : 0 < n) :
    0 ≤ Int.tmod a n ∧ Int.tmod a n < n := by
  rw [Int.tmod_eq_emod ha (Int.le_of_lt hn)]
  exact ⟨Int.emod_nonneg a (by omega), Int.emod_lt_of_pos a hn⟩

theorem jsRound_nonneg {p h : Int} (hp : 0 ≤ p) (hh : 0 < h) :
    0 ≤ jsRound p h := by
  unfold jsRound
  rw [Int.fdiv_eq_ediv _ (by omega)]
  exact Int.ediv_nonneg (by omega) (by omega)

theorem jsRound_lt {p h n : Int} (hh : 0 < h)
    (hub : 2 * p < (2 * n - 1) * h) : jsRound p h < n := by
  unfold jsRound
  rw [Int.fdiv_eq_ediv _ (by omega)]
  rw [Int.ediv_lt_iff_lt_mul (by omega)]
  nlinarith

theorem jsRound_slide_position {h n : Int} (hh : 0 < h) :
    jsRound ((n - 1) * h) h = n - 1 := by
  unfold jsRound
  rw [Int.fdiv_eq_ediv _ (by omega)]
  have harg : 2 * ((n - 1) * h) + h = h + (n - 1) * (2 * h) := by ring
  rw [harg, Int.add_mul_ediv_right _ _ (by omega : 2 * h ≠ 0),
      Int.ediv_eq_zero_of_lt (by omega) (by omega)]
  omega

/-! ## Claims about the content list model -/

/-- **C1**: for every content list satisfying the renumbering invariant, after
any Append (of a text item via `handleAddText` or an image item via
`handleAddImage`) or any Remove(id) (`removeContentItem`), the resulting
sequence satisfies `sequence[i].order == i` for every index `i`. -/
theorem appendRemove_preserves_order (l : List StoryContentItem)
    (newId txt url rid : String) (hl : Ordered l) :
    Ordered (handleAddText l newId txt) ∧
    Ordered (handleAddImage l newId url) ∧
    Ordered (removeContentItem l rid) := by
  refine ⟨?_, ?_, ordered_removeContentItem l rid⟩
  · unfold handleAddText
    split
    · exact hl
    · exact ordered_append_singleton l _ hl rfl
  · exact ordered_append_singleton l _ hl rfl

theorem appendRemove_preserves_order_witness :
    Ordered (handleAddText
      [⟨"1", ContentType.text, "a", 0⟩, ⟨"5", ContentType.image, "u1", 1⟩]
      "9" " hi ") ∧
    Ordered (handleAddImage
      [⟨"1", ContentType.text, "a", 0⟩, ⟨"5", ContentType.image, "u1", 1⟩]
      "9" "u2") ∧
    Ordered (removeContentItem
      [⟨"1", ContentType.text, "a", 0⟩, ⟨"5", ContentType.image, "u1", 1⟩]
      "1") :=
  appendRemove_preserves_order
    [⟨"1", ContentType.text, "a", 0⟩, ⟨"5", ContentType.image, "u1", 1⟩]
    "9" " hi " "u2" "1" (by decide)

/-- **C8**: for every sequence satisfying the renumbering invariant and every
id that does not occur in the sequence, Remove(id) is a no-op: the resulting
sequence equals the original sequence. -/
theorem remove_missing_id_noop (l : List StoryContentItem) (rid : String)
    (hl : Ordered l) (habs : rid ∉ l.map StoryContentItem.id) :
    removeContentItem l rid = l := by
  unfold removeContentItem
  have hfilter : l.filter (fun item => item.id ≠ rid) = l := by
    rw [List.filter_eq_self]
    intro a ha
    simp only [ne_eq, decide_eq_true_eq]
    intro hcontra
    exact habs (List.mem_map.mpr ⟨a, ha, hcontra⟩)
  rw [hfilter]
  apply renumberFrom_eq_self
  intro j hj
  simpa using hl ⟨j, hj⟩

theorem remove_missing_id_noop_witness :
    removeContentItem
      [⟨"1", ContentType.text, "a", 0⟩, ⟨"5", ContentType.image, "u1", 1⟩]
      "7" =
    [⟨"1", ContentType.text, "a", 0⟩, ⟨"5", ContentType.image, "u1", 1⟩] :=
  remove_missing_id_noop
    [⟨"1", ContentType.text, "a", 0⟩, ⟨"5", ContentType.image, "u1", 1⟩]
    "7" (by decide) (by decide)

/-- **C10**: for every sequence and every id, Remove(id) keeps exactly the
items whose id differs, in their original relative order, with `id`, `kind`
and `content` unchanged, and rewrites each remaining item's `order` field to
its new index. -/
theorem remove_frame_effect (l : List StoryContentItem) (rid : String) :
    (removeContentItem l rid).map itemData =
      (l.filter (fun item => item.id ≠ rid)).map itemData ∧
    Ordered (removeContentItem l rid) :=
  ⟨renumberFrom_map_itemData 0 _, ordered_removeContentItem l rid⟩

/-! ## Claims about the slide navigation engine -/

/-- **C2**: for every slide sequence of length `n ≥ 1`, every navigation
operation (scroll-position update, touch-gesture end, keyboard step) leaves
the navigation cursor's `currentIndex` an integer in the range `[0, n-1]`.
The scroll handler additionally assumes the DOM fact `0 ≤ scrollTop`. -/
theorem navigation_keeps_index_in_range (n : Nat) (h : Int) (key : Key)
    (s : PreviewState) (hn : 1 ≤ n) (hh : 0 < h) (hp : 0 ≤ s.scrollTop)
    (hlo : 0 ≤ s.currentIndex) (hhi : s.currentIndex < (n : Int)) :
    (0 ≤ (handleScroll n h s).currentIndex ∧
      (handleScroll n h s).currentIndex < (n : Int)) ∧
    (0 ≤ (handleTouchEnd n h s).currentIndex ∧
      (handleTouchEnd n h s).currentIndex < (n : Int)) ∧
    (0 ≤ (handleKeyDown n h key s).currentIndex ∧
      (handleKeyDown n h key s).currentIndex < (n : Int)) := by
  have hn' : (1 : Int) ≤ (n : Int) := by exact_mod_cast hn
  refine ⟨?_, ?_, ?_⟩
  · simp only [handleScroll]
    split_ifs with hm h1 h2 h3 <;> (try dsimp only)
    · exact ⟨by omega, by omega⟩
    · exact ⟨by omega, by omega⟩
    · exact ⟨jsRound_nonneg hp hh, jsRound_lt hh (by omega)⟩
    · exact ⟨hlo, hhi⟩
    · exact ⟨hlo, hhi⟩
  · simp only [handleTouchEnd]
    split_ifs with hg ht hd
    · exact ⟨hlo, hhi⟩
    · exact tmod_bounds (by omega) (by omega)
    · exact tmod_bounds (by omega) (by omega)
    · exact ⟨hlo, hhi⟩
  · cases key <;> simp only [handleKeyDown] <;> split_ifs <;> exact ⟨hlo, hhi⟩

theorem navigation_keeps_index_in_range_witness :
    (0 ≤ (handleScroll 3 100 ⟨1, 5, 40, 120, true⟩).currentIndex ∧
      (handleScroll 3 100 ⟨1, 5, 40, 120, true⟩).currentIndex < (3 : Int)) ∧
    (0 ≤ (handleTouchEnd 3 100 ⟨1, 5, 40, 120, true⟩).currentIndex ∧
      (handleTouchEnd 3 100 ⟨1, 5, 40, 120, true⟩).currentIndex < (3 : Int)) ∧
    (0 ≤ (handleKeyDown 3 100 Key.arrowDown ⟨1, 5, 40, 120, true⟩).currentIndex ∧
      (handleKeyDown 3 100 Key.arrowDown ⟨1, 5, 40, 120, true⟩).currentIndex < (3 : Int)) :=
  navigation_keeps_index_in_range 3 100 Key.arrowDown ⟨1, 5, 40, 120, true⟩
    (by decide) (by decide) (by decide) (by decide) (by decide)

/-- **C3**: for every slide sequence of length `n ≥ 1`, the looping step used
by touch swipe wraps at the boundaries: a swipe up (`diff > threshold`) at
`currentIndex == n-1` yields `0`, and a swipe down (`diff < -threshold`) at
`currentIndex == 0` yields `n-1`. -/
theorem touch_stepLoop_wraps (n : Nat) (h : Int) (s : PreviewState)
    (hn : 1 ≤ n) (hm : s.mounted = true) (hts : s.touchStartY ≠ 0) :
    (30 < s.touchStartY - s.touchEndY → s.currentIndex = (n : Int) - 1 →
      (handleTouchEnd n h s).currentIndex = 0) ∧
    (s.touchStartY - s.touchEndY < -30 → s.currentIndex = 0 →
      (handleTouchEnd n h s).currentIndex = (n : Int) - 1) := by
  have hn' : (1 : Int) ≤ (n : Int) := by exact_mod_cast hn
  have hgn : ¬(s.touchStartY = 0 ∨ s.mounted = false) := by
    push_neg
    exact ⟨hts, by simp [hm]⟩
  constructor
  · intro hdiff hidx
    have habs : (30 : Int) < |s.touchStartY - s.touchEndY| :=
      lt_abs.mpr (Or.inl hdiff)
    simp only [handleTouchEnd]
    split_ifs with hd
    · dsimp only
      rw [hidx, show ((n : Int) - 1 + 1) = (n : Int) from by ring]
      exact Int.tmod_self
    · omega
  · intro hdiff hidx
    have habs : (30 : Int) < |s.touchStartY - s.touchEndY| :=
      lt_abs.mpr (Or.inr (by omega))
    simp only [handleTouchEnd]
    split_ifs with hd
    · omega
    · dsimp only
      rw [hidx, show ((0 : Int) - 1 + (n : Int)) = (n : Int) - 1 from by ring,
        Int.tmod_eq_emod (by omega) (by omega),
        Int.emod_eq_of_lt (by omega) (by omega)]

theorem touch_stepLoop_wraps_witness :
    (handleTouchEnd 3 100 ⟨2, 60, 5, 0, true⟩).currentIndex = 0 ∧
    (handleTouchEnd 3 100 ⟨0, 5, 60, 0, true⟩).currentIndex = 2 :=
  ⟨(touch_stepLoop_wraps 3 100 ⟨2, 60, 5, 0, true⟩ (by decide) rfl
      (by decide)).1 (by decide) (by decide),
   (touch_stepLoop_wraps 3 100 ⟨0, 5, 60, 0, true⟩ (by decide) rfl
      (by decide)).2 (by decide) (by decide)⟩

/-- **C4**: for every slide sequence of length `n ≥ 1`, the clamped step used
by keyboard navigation stops at the boundaries. In `src/unnamed/part_000`,
`handleKeyDown` never writes `currentIndex` (it only scrolls), and at
`currentIndex == n-1` ArrowDown scrolls to the same slide, so even the scroll
handler reacting to it leaves the index unchanged; ArrowUp at
`currentIndex == 0` likewise. In the backup modal, `nextSlide` at `n-1` and
`prevSlide` at `0` are complete no-ops. -/
theorem keyboard_step_clamps (n : Nat) (h : Int) (s : PreviewState)
    (t : ModalState) (hn : 1 ≤ n) (hh : 0 < h) (hm : s.mounted = true) :
    (s.currentIndex = (n : Int) - 1 →
      (handleKeyDown n h Key.arrowDown s).currentIndex = s.currentIndex ∧
      (handleScroll n h (handleKeyDown n h Key.arrowDown s)).currentIndex
        = s.currentIndex) ∧
    (s.currentIndex = 0 →
      (handleKeyDown n h Key.arrowUp s).currentIndex = s.currentIndex) ∧
    (t.currentIndex = (n : Int) - 1 → nextSlide (n : Int) t = t) ∧
    (t.currentIndex = 0 → prevSlide t = t) := by
  have hn' : (1 : Int) ≤ (n : Int) := by exact_mod_cast hn
  refine ⟨?_, ?_, ?_, ?_⟩
  · intro hidx
    have hdown : handleKeyDown n h Key.arrowDown s =
        { s with scrollTop := ((n : Int) - 1) * h } := by
      simp only [handleKeyDown, hm, if_true]
      rw [hidx, show min ((n : Int) - 1 + 1) ((n : Int) - 1) = (n : Int) - 1
        from by omega]
    refine ⟨by rw [hdown], ?_⟩
    rw [hdown]
    simp only [handleScroll]
    split_ifs with h1 h2 h3 <;> (try dsimp only) <;> first
      | omega
      | (exfalso
         have he : (2 * (n : Int) - 1) * h - 2 * (((n : Int) - 1) * h) = h := by
           ring
         omega)
      | (rw [jsRound_slide_position hh]; omega)
  · intro hidx
    simp only [handleKeyDown, hm, if_true]
  · intro hidx
    unfold nextSlide
    rw [if_neg (by omega)]
  · intro hidx
    unfold prevSlide
    rw [if_neg (by omega)]

theorem keyboard_step_clamps_witness :
    ((handleKeyDown 3 100 Key.arrowDown ⟨2, 0, 0, 200, true⟩).currentIndex = 2 ∧
      (handleScroll 3 100
        (handleKeyDown 3 100 Key.arrowDown ⟨2, 0, 0, 200, true⟩)).currentIndex = 2) ∧
    (handleKeyDown 3 100 Key.arrowUp ⟨0, 0, 0, 0, true⟩).currentIndex = 0 ∧
    nextSlide 3 ⟨2, false, none⟩ = ⟨2, false, none⟩ ∧
    prevSlide ⟨0, false, none⟩ = ⟨0, false, none⟩ :=
  ⟨(keyboard_step_clamps 3 100 ⟨2, 0, 0, 200, true⟩ ⟨2, false, none⟩
      (by decide) (by decide) rfl).1 (by decide),
   (keyboard_step_clamps 3 100 ⟨0, 0, 0, 0, true⟩ ⟨2, false, none⟩
      (by decide) (by decide) rfl).2.1 (by decide),
   (keyboard_step_clamps 3 100 ⟨0, 0, 0, 0, true⟩ ⟨2, false, none⟩
      (by decide) (by decide) rfl).2.2.1 (by decide),
   (keyboard_step_clamps 3 100 ⟨0, 0, 0, 0, true⟩ ⟨0, false, none⟩
      (by decide) (by decide) rfl).2.2.2 (by decide)⟩

/-- **C5**: for every slide sequence of length `n ≥ 1`, a scroll offset at or
past the midpoint between slide `n-1` and slide `n` (source comparison
`scrollPosition >= (n - 0.5) * windowHeight`, scaled by 2) makes the scroll
handler reset the scroll position to `0` and set `currentIndex = 0`; and a
scroll offset at or before `0` while `currentIndex == 0` sets
`currentIndex = n-1` and scrolls to slide `n-1`. -/
theorem scroll_midpoint_wraps (n : Nat) (h : Int) (s : PreviewState)
    (hn : 1 ≤ n) (hh : 0 < h) (hm : s.mounted = true) :
    (2 * s.scrollTop ≥ (2 * (n : Int) - 1) * h →
      (handleScroll n h s).currentIndex = 0 ∧
      (handleScroll n h s).scrollTop = 0) ∧
    (s.scrollTop ≤ 0 → s.currentIndex = 0 →
      (handleScroll n h s).currentIndex = (n : Int) - 1 ∧
      (handleScroll n h s).scrollTop = ((n : Int) - 1) * h) := by
  have hn' : (1 : Int) ≤ (n : Int) := by exact_mod_cast hn
  constructor
  · intro hc
    simp only [handleScroll, hm, if_true]
    rw [if_pos hc]
    exact ⟨rfl, rfl⟩
  · intro hp hi
    have hpos : 0 < (2 * (n : Int) - 1) * h := mul_pos (by omega) hh
    simp only [handleScroll, hm, if_true]
    rw [if_neg (by omega), if_pos ⟨hp, hi⟩]
    exact ⟨rfl, rfl⟩

theorem scroll_midpoint_wraps_witness :
    ((handleScroll 3 100 ⟨1, 0, 0, 260, true⟩).currentIndex = 0 ∧
      (handleScroll 3 100 ⟨1, 0, 0, 260, true⟩).scrollTop = 0) ∧
    ((handleScroll 3 100 ⟨0, 0, 0, 0, true⟩).currentIndex = 2 ∧
      (handleScroll 3 100 ⟨0, 0, 0, 0, true⟩).scrollTop = 200) :=
  ⟨(scroll_midpoint_wraps 3 100 ⟨1, 0, 0, 260, true⟩ (by decide) (by decide)
      rfl).1 (by decide),
   (scroll_midpoint_wraps 3 100 ⟨0, 0, 0, 0, true⟩ (by decide) (by decide)
      rfl).2 (by decide) (by decide)⟩

/-- **C6**: for every slide sequence and every touch gesture whose start and
end vertical coordinates differ by at most the threshold of 30
(`abs(touchStartY - touchEndY) <= 30`), ending the gesture never changes
`currentIndex`. -/
theorem small_swipe_keeps_index (n : Nat) (h : Int) (s : PreviewState)
    (hsmall : |s.touchStartY - s.touchEndY| ≤ 30) :
    (handleTouchEnd n h s).currentIndex = s.currentIndex := by
  simp only [handleTouchEnd]
  split_ifs with hg ht hd
  · rfl
  · omega
  · omega
  · rfl

theorem small_swipe_keeps_index_witness :
    (handleTouchEnd 3 100 ⟨1, 40, 20, 100, true⟩).currentIndex = 1 :=
  small_swipe_keeps_index 3 100 ⟨1, 40, 20, 100, true⟩ (by decide)

/-- **C9**: when the slide sequence is empty (`n == 0`), the render guard at
`src/unnamed/part_000` line 942 mounts nothing, so `containerRef.current` is
null and every navigation call (scroll update, touch-gesture end, keyboard
step) hits its `!containerRef.current` guard and leaves all state
unchanged. -/
theorem empty_sequence_navigation_noop (h : Int) (key : Key)
    (s : PreviewState) (storyContent : List StoryContentItem)
    (hempty : storyContent = [])
    (hm : s.mounted = rendersContainer storyContent s.currentIndex) :
    handleScroll storyContent.length h s = s ∧
    handleTouchEnd storyContent.length h s = s ∧
    handleKeyDown storyContent.length h key s = s := by
  subst hempty
  have hmf : s.mounted = false := by simpa [rendersContainer] using hm
  refine ⟨?_, ?_, ?_⟩
  · simp [handleScroll, hmf]
  · simp [handleTouchEnd, hmf]
  · cases key <;> simp [handleKeyDown, hmf]

theorem empty_sequence_navigation_noop_witness :
    handleScroll (List.length ([] : List StoryContentItem)) 100
      ⟨0, 5, 0, 0, false⟩ = ⟨0, 5, 0, 0, false⟩ ∧
    handleTouchEnd (List.length ([] : List StoryContentItem)) 100
      ⟨0, 5, 0, 0, false⟩ = ⟨0, 5, 0, 0, false⟩ ∧
    handleKeyDown (List.length ([] : List StoryContentItem)) 100 Key.arrowDown
      ⟨0, 5, 0, 0, false⟩ = ⟨0, 5, 0, 0, false⟩ :=
  empty_sequence_navigation_noop 100 Key.arrowDown ⟨0, 5, 0, 0, false⟩ []
    rfl (by decide)

/-! ## Claim C7: the transition animation contract

The claim says every `currentIndex` change caused by a discrete step (arrow
key or tap-to-select) sets `isTransitioning = true`, holds for 200 time units
and then clears it when the new index is committed. The backup modal's
tap-to-select dots (`src/components/story-editor.backup.tsx` line 556) call
`setCurrentIndex(index)` directly: the index changes with `isTransitioning`
never set and no settle timer pending, so the claim as stated is false.
Only the `nextSlide` / `prevSlide` arrow steps follow the contract. -/

/-- **C7** (counterexample): tapping slide-indicator dot 2 while idle at index
0 changes `currentIndex` (a discrete tap-to-select step) while
`isTransitioning` stays `false` and no settle timer is ever created. -/
theorem tap_select_breaks_transition_contract :
    (selectSlide 2 ⟨0, false, none⟩).currentIndex ≠
      (⟨0, false, none⟩ : ModalState).currentIndex ∧
    (selectSlide 2 ⟨0, false, none⟩).isTransitioning = false ∧
    (selectSlide 2 ⟨0, false, none⟩).pending = none := by
  refine ⟨by decide, rfl, rfl⟩

/-- **C7** (amended): every change of `currentIndex` caused by the arrow-step
operations `nextSlide` / `prevSlide` of the backup modal first sets
`isTransitioning = true` with a pending settle timer of 200 time units, and
firing that timer commits the new index at the same moment it sets
`isTransitioning` back to `false`; the tap-to-select dots instead commit the
tapped index immediately, without touching `isTransitioning`. -/
theorem arrow_step_transition_contract (n : Int) (s : ModalState)
    (hnext : s.currentIndex < n - 1) (hprev : 0 < s.currentIndex) :
    (nextSlide n s).isTransitioning = true ∧
    (nextSlide n s).currentIndex = s.currentIndex ∧
    (nextSlide n s).pending = some (settleDelay, StepDir.inc) ∧
    settleDelay = 200 ∧
    (firePending (nextSlide n s)).currentIndex = s.currentIndex + 1 ∧
    (firePending (nextSlide n s)).isTransitioning = false ∧
    (prevSlide s).isTransitioning = true ∧
    (prevSlide s).currentIndex = s.currentIndex ∧
    (prevSlide s).pending = some (settleDelay, StepDir.dec) ∧
    (firePending (prevSlide s)).currentIndex = s.currentIndex - 1 ∧
    (firePending (prevSlide s)).isTransitioning = false ∧
    (∀ i : Int, selectSlide i s = { s with currentIndex := i }) := by
  unfold nextSlide prevSlide
  rw [if_pos hnext, if_pos hprev]
  exact ⟨rfl, rfl, rfl, rfl, rfl, rfl, rfl, rfl, rfl, rfl, rfl,
    fun i => rfl⟩

theorem arrow_step_transition_contract_witness :
    (nextSlide 3 ⟨1, false, none⟩).isTransitioning = true ∧
    (nextSlide 3 ⟨1, false, none⟩).currentIndex = 1 ∧
    (nextSlide 3 ⟨1, false, none⟩).pending = some (settleDelay, StepDir.inc) ∧
    settleDelay = 200 ∧
    (firePending (nextSlide 3 ⟨1, false, none⟩)).currentIndex = 2 ∧
    (firePending (nextSlide 3 ⟨1, false, none⟩)).isTransitioning = false ∧
    (prevSlide ⟨1, false, none⟩).isTransitioning = true ∧
    (prevSlide ⟨1, false, none⟩).currentIndex = 1 ∧
    (prevSlide ⟨1, false, none⟩).pending = some (settleDelay, StepDir.dec) ∧
    (firePending (prevSlide ⟨1, false, none⟩)).currentIndex = 0 ∧
    (firePending (prevSlide ⟨1, false, none⟩)).isTransitioning = false ∧
    (∀ i : Int, selectSlide i ⟨1, false, none⟩ =
      { (⟨1, false, none⟩ : ModalState) with currentIndex := i }) :=
  arrow_step_transition_contract 3 ⟨1, false, none⟩ (by decide) (by decide)
